import Mathlib

/-!
Verification development for the seismogram-extraction core of the
`instaseis` repository (files `axisem_db.py` and
`instaseis/base_instaseis_db.py`).

The driving routine `AxiSEMDB.get_seismogram` is embedded shallowly below.
Numbers are modelled by `ℚ`; arrays are modelled by total functions from
indices (a NumPy array of shape `(ndumps, npol+1, npol+1, 3)` becomes a
function `Nat → Nat → Nat → Fin 3 → ℚ` that is zero outside the filled
range, matching the `np.zeros` initialisation).

The routines that `axisem_db.py` imports from the modules
`finite_elem_mapping`, `rotations`, `sem_derivatives` and `spectral_basis`
are not part of the two source files; they enter the model as abstract
function parameters collected in the structure `Ext`.  The k-d tree built
by the (equally absent) `mesh.Mesh` class is modelled from the spec, see
`kdtree_query`.
-/

namespace Instaseis

/-- A matrix, as used for the differentiation matrices G2, G1T, G2T. -/
abbrev Mat := List (List ℚ)

/-- The displacement buffer `utemp`: indices (time, jpol, ipol, component). -/
abbrev DisplBuffer := Nat → Nat → Nat → Fin 3 → ℚ

/-- A strain field over one element: indices (time, jpol, ipol, Voigt index). -/
abbrev StrainField := Nat → Nat → Nat → Fin 6 → ℚ

/-- The common signature of `sem_derivatives.strain_monopole_td`,
`strain_dipole_td` and `strain_quadpole_td`:
arguments (utemp, G, GT, col_points_xi, col_points_eta, npol, ndumps,
corner_points, eltype, axial). -/
abbrev StrainFn := DisplBuffer → Mat → Mat → List ℚ → List ℚ → Nat → Nat →
  List (ℚ × ℚ) → Int → Bool → StrainField

/-- The external numerical routines imported by `axisem_db.py` from the
modules `rotations`, `finite_elem_mapping`, `sem_derivatives`,
`spectral_basis` and from NumPy.  Their bodies are not in the two source
files under consideration, so the embedding is parametric in them. -/
structure Ext where
  rotate_frame_rd : ℚ → ℚ → ℚ → ℚ → ℚ → ℚ × ℚ × ℚ
  inside_element : ℚ → ℚ → List (ℚ × ℚ) → Int → ℚ → Bool × ℚ × ℚ
  deg2rad : ℚ → ℚ
  rotate_symm_tensor_voigt_xyz_src_to_xyz_earth_1d :
    (Fin 6 → ℚ) → ℚ → ℚ → Fin 6 → ℚ
  rotate_symm_tensor_voigt_xyz_earth_to_xyz_src_1d :
    (Fin 6 → ℚ) → ℚ → ℚ → Fin 6 → ℚ
  rotate_symm_tensor_voigt_xyz_to_src_1d : (Fin 6 → ℚ) → ℚ → Fin 6 → ℚ
  azim_factor_bw : ℚ → ℚ × ℚ × ℚ → Nat → Nat → ℚ
  strain_monopole_td : StrainFn
  strain_dipole_td : StrainFn
  strain_quadpole_td : StrainFn
  lagrange_interpol_2D_td :
    List ℚ → List ℚ → (Nat → Nat → Nat → ℚ) → ℚ → ℚ → Nat → ℚ

/-- The variables of the "Mesh" group of the netCDF file
(`self.__files["px"].groups["Mesh"]`). -/
structure MeshVars where
  fem_mesh : Nat → List Nat
  eltype : Nat → Int
  mesh_S : Nat → ℚ
  mesh_Z : Nat → ℚ
  sem_mesh : Nat → Nat → Nat → Nat
  axis : Nat → Bool

/-- The `mesh.Mesh` object `self._meshes["px"]` together with the
"Snapshots" group of its file.  `kd_points` holds the per-element
representative vertices over which the k-d tree is built; `snapshots`
returns, for a variable name, the stored field as a function of
(time sample, point id), or `none` when the variable is absent. -/
structure Mesh where
  kd_points : List (ℚ × ℚ)
  dump_type : String
  npol : Nat
  ndumps : Nat
  chunks : List Nat
  excitation_type : String
  amplitude : ℚ
  G2 : Mat
  G1T : Mat
  G2T : Mat
  gll_points : List ℚ
  glj_points : List ℚ
  snapshots : String → Option (Nat → Nat → ℚ)

/-- A point source: Cartesian location in km, geographic angles in degrees
and the moment tensor in Voigt packing. -/
structure Source where
  x : ℚ
  y : ℚ
  z : ℚ
  longitude : ℚ
  colatitude : ℚ
  tensor_voigt : Fin 6 → ℚ

/-- A receiver: geographic angles in degrees. -/
structure Receiver where
  longitude : ℚ
  colatitude : ℚ

/-- Squared Euclidean distance in the (S, Z) plane. -/
def dist2 (p q : ℚ × ℚ) : ℚ := (p.1 - q.1) ^ 2 + (p.2 - q.2) ^ 2

/-- The Python `str.strip()` method: remove leading and trailing
whitespace. -/
def pystrip (s : String) : String :=
  String.mk
    ((((s.data.dropWhile Char.isWhitespace).reverse).dropWhile
      Char.isWhitespace).reverse)

/-- Modelled from the spec: the spatial index (a `scipy` k-d tree built by
the absent `mesh.Mesh` class over one representative vertex per element)
returns the indices of up to `k` stored points, ordered from nearest to
farthest from the query point. -/
def kdtree_query (pts : List (ℚ × ℚ)) (p : ℚ × ℚ) (k : Nat) : List Nat :=
  (List.insertionSort
    (fun i j => dist2 (pts.getD i (0, 0)) p ≤ dist2 (pts.getD j (0, 0)) p)
    (List.range pts.length)).take k

/-- The corner points of one element: the first 4 entries of its `fem_mesh`
row, looked up in the `mesh_S` and `mesh_Z` coordinate arrays. -/
def corner_points (mv : MeshVars) (idx : Nat) : List (ℚ × ℚ) :=
  ((mv.fem_mesh idx).take 4).map (fun i => (mv.mesh_S i, mv.mesh_Z i))

/-- The containment test applied to one candidate element, exactly as in
the search loop of `get_seismogram` (tolerance 1E-3). -/
def candidate_test (ext : Ext) (mv : MeshVars) (s z : ℚ) (idx : Nat) :
    Bool × ℚ × ℚ :=
  ext.inside_element s z (corner_points mv idx) (mv.eltype idx) (1 / 1000)

/-- The `for idx in nextpoints[1]: ... else: raise` search loop of
`get_seismogram`: traverse the candidate list in order and return the
first element for which `inside_element` reports containment, together
with its local coordinates; `none` models the for/else fallthrough. -/
def find_element (ext : Ext) (mv : MeshVars) (s z : ℚ) :
    List Nat → Option (Nat × ℚ × ℚ)
  | [] => none
  | idx :: rest =>
    let r := candidate_test ext mv s z idx
    if r.1 then some (idx, r.2.1, r.2.2) else find_element ext mv s z rest

/-- The displacement variable names, in the order of the loading loop. -/
def disp_var : Fin 3 → String
  | 0 => "disp_s"
  | 1 => "disp_p"
  | 2 => "disp_z"

/-- The two successive assignments to `start_chunk` in the loading loop:
first the chunk-aligned value `gll_point_ids[ipol, jpol] / chunks[1] *
chunks[1]` (integer division), immediately overwritten by the raw node id. -/
def start_chunk_index (gll_id chunks1 : Nat) : Nat :=
  let start_chunk := gll_id / chunks1 * chunks1
  let start_chunk := gll_id
  start_chunk

/-- The displacement buffer `utemp` after the loading loop: zero
initialised, then for each `(ipol, jpol)` and each present displacement
variable `i`, `utemp[:, jpol, ipol, i] = var[:, start_chunk]`.  An absent
variable is skipped, leaving that component zero. -/
def utemp (m : Mesh) (gll_point_ids : Nat → Nat → Nat)
    (t jpol ipol : Nat) (c : Fin 3) : ℚ :=
  if t < m.ndumps ∧ jpol ≤ m.npol ∧ ipol ≤ m.npol then
    match m.snapshots (disp_var c) with
    | none => 0
    | some f => f t (start_chunk_index (gll_point_ids ipol jpol) (m.chunks.getD 1 0))
  else 0

/-- Variant of `utemp` in which the first (chunk-aligned) assignment to
`start_chunk` has been deleted: the raw node id indexes the field store. -/
def utemp_nochunk (m : Mesh) (gll_point_ids : Nat → Nat → Nat)
    (t jpol ipol : Nat) (c : Fin 3) : ℚ :=
  if t < m.ndumps ∧ jpol ≤ m.npol ∧ ipol ≤ m.npol then
    match m.snapshots (disp_var c) with
    | none => 0
    | some f => f t (gll_point_ids ipol jpol)
  else 0

/-- The dictionary `strain_fct_map` indexed by the excitation type; `none`
models the `KeyError` raised on an unknown key. -/
def strain_fct_map (ext : Ext) (s : String) : Option StrainFn :=
  if s = "monopole" then some ext.strain_monopole_td
  else if s = "dipole" then some ext.strain_dipole_td
  else if s = "quadpole" then some ext.strain_quadpole_td
  else none

/-- The selection of differentiation matrices and collocation points by the
axis flag: `(G, GT, col_points_xi, col_points_eta)`. -/
def basis_selection (m : Mesh) (axis : Bool) : Mat × Mat × List ℚ × List ℚ :=
  if axis then (m.G2, m.G1T, m.glj_points, m.gll_points)
  else (m.G2, m.G2T, m.gll_points, m.gll_points)

/-- One interpolated strain component before the sign flips:
`lagrange_interpol_2D_td(col_points_xi, col_points_eta, strain[:, :, :, i],
xi, eta)` evaluated at time sample `t`. -/
def final_strain_raw (ext : Ext) (cxi ceta : List ℚ) (strain : StrainField)
    (xi eta : ℚ) (t : Nat) (i : Fin 6) : ℚ :=
  ext.lagrange_interpol_2D_td cxi ceta (fun a b c => strain a b c i) xi eta t

/-- The in-place sign flips `final_strain[:, 3] *= -1.0` and
`final_strain[:, 5] *= -1.0`. -/
def sign_flip (fs : Nat → Fin 6 → ℚ) (t : Nat) (i : Fin 6) : ℚ :=
  if i = 3 ∨ i = 5 then -1 * fs t i else fs t i

/-- The three successive Voigt rotations of the moment tensor followed by
the amplitude normalisation `mij /= mesh.amplitude`. -/
def compute_mij (ext : Ext) (source : Source) (receiver : Receiver)
    (rotmesh_phi amplitude : ℚ) : Fin 6 → ℚ :=
  let mij := ext.rotate_symm_tensor_voigt_xyz_src_to_xyz_earth_1d
    source.tensor_voigt (ext.deg2rad source.longitude)
    (ext.deg2rad source.colatitude)
  let mij := ext.rotate_symm_tensor_voigt_xyz_earth_to_xyz_src_1d
    mij (ext.deg2rad receiver.longitude) (ext.deg2rad receiver.colatitude)
  let mij := ext.rotate_symm_tensor_voigt_xyz_to_src_1d mij rotmesh_phi
  fun i => mij i / amplitude

/-- The closing accumulation: `final = np.zeros(...)`, the six `final +=`
lines, then `final *= -1.0`, at one time sample. -/
def contraction (fs : Nat → Fin 6 → ℚ) (mij : Fin 6 → ℚ)
    (fac_1 fac_2 : ℚ) (t : Nat) : ℚ :=
  let final : ℚ := 0
  let final := final + fs t 0 * mij 0 * 1 * fac_1
  let final := final + fs t 1 * mij 1 * 1 * fac_1
  let final := final + fs t 2 * mij 2 * 1 * fac_1
  let final := final + fs t 3 * mij 3 * 2 * fac_2
  let final := final + fs t 4 * mij 4 * 2 * fac_1
  let final := final + fs t 5 * mij 5 * 2 * fac_2
  let final := final * (-1)
  final

/-- Shallow embedding of `AxiSEMDB.get_seismogram`.  The result
distinguishes the raised exceptions (`Except.error`), the explicit
`return final` (`Except.ok (some trace)`) and the implicit `return None`
reached when `component` is not "N" (`Except.ok none`). -/
def get_seismogram (ext : Ext) (mv : MeshVars) (m : Mesh) (source : Source)
    (receiver : Receiver) (component : String) :
    Except String (Option (List ℚ)) :=
  let r3 := ext.rotate_frame_rd (source.x * 1000) (source.y * 1000)
    (source.z * 1000) receiver.longitude receiver.colatitude
  let nextpoints := kdtree_query m.kd_points (r3.1, r3.2.2) 6
  match find_element ext mv r3.1 r3.2.2 nextpoints with
  | none => Except.error "Element not found"
  | some (id_elem, xi, eta) =>
    if component = "N" then
      if pystrip m.dump_type ≠ "displ_only" then Except.error "NotImplementedError"
      else
        let sel := basis_selection m (mv.axis id_elem)
        match strain_fct_map ext m.excitation_type with
        | none => Except.error "KeyError"
        | some strain_fct =>
          let strain := strain_fct (utemp m (mv.sem_mesh id_elem)) sel.1
            sel.2.1 sel.2.2.1 sel.2.2.2 m.npol m.ndumps
            (corner_points mv id_elem) (mv.eltype id_elem) (mv.axis id_elem)
          let final_strain :=
            sign_flip (final_strain_raw ext sel.2.2.1 sel.2.2.2 strain xi eta)
          let mij := compute_mij ext source receiver r3.2.1 m.amplitude
          let fac_1 := ext.azim_factor_bw r3.2.1 (0, 1, 0) 2 1
          let fac_2 := ext.azim_factor_bw r3.2.1 (0, 1, 0) 2 2
          Except.ok (some
            ((List.range m.ndumps).map (contraction final_strain mij fac_1 fac_2)))
    else
      Except.ok none

/-- Variant of `get_seismogram` whose loading loop omits the first,
chunk-aligned assignment to `start_chunk` (it uses `utemp_nochunk`);
everything else is unchanged. -/
def get_seismogram_nochunk (ext : Ext) (mv : MeshVars) (m : Mesh)
    (source : Source) (receiver : Receiver) (component : String) :
    Except String (Option (List ℚ)) :=
  let r3 := ext.rotate_frame_rd (source.x * 1000) (source.y * 1000)
    (source.z * 1000) receiver.longitude receiver.colatitude
  let nextpoints := kdtree_query m.kd_points (r3.1, r3.2.2) 6
  match find_element ext mv r3.1 r3.2.2 nextpoints with
  | none => Except.error "Element not found"
  | some (id_elem, xi, eta) =>
    if component = "N" then
      if pystrip m.dump_type ≠ "displ_only" then Except.error "NotImplementedError"
      else
        let sel := basis_selection m (mv.axis id_elem)
        match strain_fct_map ext m.excitation_type with
        | none => Except.error "KeyError"
        | some strain_fct =>
          let strain := strain_fct (utemp_nochunk m (mv.sem_mesh id_elem)) sel.1
            sel.2.1 sel.2.2.1 sel.2.2.2 m.npol m.ndumps
            (corner_points mv id_elem) (mv.eltype id_elem) (mv.axis id_elem)
          let final_strain :=
            sign_flip (final_strain_raw ext sel.2.2.1 sel.2.2.2 strain xi eta)
          let mij := compute_mij ext source receiver r3.2.1 m.amplitude
          let fac_1 := ext.azim_factor_bw r3.2.1 (0, 1, 0) 2 1
          let fac_2 := ext.azim_factor_bw r3.2.1 (0, 1, 0) 2 2
          Except.ok (some
            ((List.range m.ndumps).map (contraction final_strain mij fac_1 fac_2)))
    else
      Except.ok none

/-- Whether an embedded result is a normal return (as opposed to a raised
exception). -/
def is_ok (r : Except String (Option (List ℚ))) : Bool :=
  match r with
  | Except.ok _ => true
  | Except.error _ => false

/-!  Model of the `info` property of `BaseInstaseisDB`
(`instaseis/base_instaseis_db.py`).  The instance attribute dictionary is
an association list from attribute names to values; a value is identified
by the ordinal of the `get_info()` call that produced it, so that
recomputation is observable.  Python name mangling rewrites the identifier
`self.__cached_info` occurring inside `class BaseInstaseisDB` to
`self._BaseInstaseisDB__cached_info`, but leaves the string literal
`"__cached_info"` passed to `hasattr` untouched. -/

/-- The state of one database object: its attribute dictionary and the
number of `get_info()` calls made so far. -/
structure InfoState where
  attrs : List (String × Nat)
  get_info_calls : Nat

/-- `hasattr(self, name)` on the modelled attribute dictionary. -/
def hasattr (attrs : List (String × Nat)) (name : String) : Bool :=
  (attrs.lookup name).isSome

/-- The attribute name that the assignment `self.__cached_info = ...`
actually writes, after Python name mangling. -/
def mangled_cached_info : String := "_BaseInstaseisDB__cached_info"

/-- One access of the `info` property: if `hasattr(self, "__cached_info")`
fails, call `get_info()` and store the fresh value under the mangled
attribute name; then return the attribute under the mangled name. -/
def info_property (st : InfoState) : InfoState × Option Nat :=
  let st1 :=
    if hasattr st.attrs "__cached_info" then st
    else InfoState.mk ((mangled_cached_info, st.get_info_calls + 1) :: st.attrs)
      (st.get_info_calls + 1)
  (st1, st1.attrs.lookup mangled_cached_info)

/-!  Constants of the contraction step, written down as the specification
states them, for comparison with the embedded code. -/

/-- The Voigt multiplicities as the spec states them. -/
def voigt_multiplicity : Fin 6 → ℚ
  | 0 => 1 | 1 => 1 | 2 => 1 | 3 => 2 | 4 => 2 | 5 => 2

/-- Which azimuth factor each Voigt slot receives. -/
def azim_weight (fac_1 fac_2 : ℚ) : Fin 6 → ℚ
  | 0 => fac_1 | 1 => fac_1 | 2 => fac_1 | 3 => fac_2 | 4 => fac_1 | 5 => fac_2

/-- The per-component strain sign stated by the claim: -1 exactly at
Voigt indices 3 and 5. -/
def strain_sign : Fin 6 → ℚ
  | 0 => 1 | 1 => 1 | 2 => 1 | 3 => -1 | 4 => 1 | 5 => -1

/-!  Concrete instantiations of the external routines and of the database
structures, used to evaluate the embedding on closed inputs. -/

/-- Trivial external routines whose containment test always succeeds. -/
def extT : Ext :=
  Ext.mk (fun _ _ _ _ _ => (0, 0, 0)) (fun _ _ _ _ _ => (true, 0, 0))
    (fun q => q) (fun v _ _ => v) (fun v _ _ => v) (fun v _ => v)
    (fun _ _ _ _ => 1)
    (fun _ _ _ _ _ _ _ _ _ _ _ _ _ _ => 0)
    (fun _ _ _ _ _ _ _ _ _ _ _ _ _ _ => 0)
    (fun _ _ _ _ _ _ _ _ _ _ _ _ _ _ => 0)
    (fun _ _ _ _ _ _ => 0)

/-- Trivial external routines whose containment test always fails. -/
def extF : Ext :=
  Ext.mk (fun _ _ _ _ _ => (0, 0, 0)) (fun _ _ _ _ _ => (false, 0, 0))
    (fun q => q) (fun v _ _ => v) (fun v _ _ => v) (fun v _ => v)
    (fun _ _ _ _ => 1)
    (fun _ _ _ _ _ _ _ _ _ _ _ _ _ _ => 0)
    (fun _ _ _ _ _ _ _ _ _ _ _ _ _ _ => 0)
    (fun _ _ _ _ _ _ _ _ _ _ _ _ _ _ => 0)
    (fun _ _ _ _ _ _ => 0)

/-- A one-element mesh-variable table with the axis flag cleared. -/
def mvW : MeshVars :=
  MeshVars.mk (fun _ => [0, 0, 0, 0]) (fun _ => 0) (fun _ => 0) (fun _ => 0)
    (fun _ _ _ => 0) (fun _ => false)

/-- A one-element mesh-variable table with the axis flag set. -/
def mvAx : MeshVars :=
  MeshVars.mk (fun _ => [0, 0, 0, 0]) (fun _ => 0) (fun _ => 0) (fun _ => 0)
    (fun _ _ _ => 0) (fun _ => true)

/-- A small database with the supported dump type, monopole excitation,
two time samples and an empty field store. -/
def mW : Mesh :=
  Mesh.mk [(0, 0)] "displ_only" 1 2 [1, 1] "monopole" 1 [[1]] [[1]] [[1]]
    [0] [0] (fun _ => none)

/-- The same database with an unsupported dump type. -/
def mBad : Mesh :=
  Mesh.mk [(0, 0)] "strain_only" 1 2 [1, 1] "monopole" 1 [[1]] [[1]] [[1]]
    [0] [0] (fun _ => none)

/-- A source at the origin with a constant moment tensor. -/
def srcW : Source := Source.mk 0 0 0 0 0 (fun _ => 1)

/-- A receiver at zero longitude and colatitude. -/
def recW : Receiver := Receiver.mk 0 0

/-- External routines whose containment test accepts exactly the element
whose type tag is 6. -/
def ext10 : Ext :=
  Ext.mk (fun _ _ _ _ _ => (0, 0, 0))
    (fun _ _ _ elt _ => (decide (elt = 6), 0, 0))
    (fun q => q) (fun v _ _ => v) (fun v _ _ => v) (fun v _ => v)
    (fun _ _ _ _ => 1)
    (fun _ _ _ _ _ _ _ _ _ _ _ _ _ _ => 0)
    (fun _ _ _ _ _ _ _ _ _ _ _ _ _ _ => 0)
    (fun _ _ _ _ _ _ _ _ _ _ _ _ _ _ => 0)
    (fun _ _ _ _ _ _ => 0)

/-- A seven-element mesh-variable table whose element type tag equals the
element index, so that `ext10` accepts exactly element 6. -/
def mv10 : MeshVars :=
  MeshVars.mk (fun idx => [idx, idx, idx, idx]) (fun idx => (idx : Int))
    (fun i => (i : ℚ)) (fun _ => 0) (fun _ _ _ => 0) (fun _ => false)

/-- A seven-element database whose representative vertices put element 6
farthest from the origin. -/
def m10 : Mesh :=
  Mesh.mk [(1, 0), (2, 0), (3, 0), (4, 0), (5, 0), (6, 0), (10, 0)]
    "displ_only" 1 2 [1, 1] "monopole" 1 [[1]] [[1]] [[1]]
    [0] [0] (fun _ => none)

/-!  Helper lemmas. -/

/-- On the found-element, supported-dump, known-excitation path,
`get_seismogram` returns the mapped contraction of the sign-flipped
interpolated strain against the normalised rotated moment tensor. -/
theorem get_seismogram_found (ext : Ext) (mv : MeshVars) (m : Mesh)
    (source : Source) (receiver : Receiver) (idx : Nat) (xi eta : ℚ)
    (sf : StrainFn) (s phi z : ℚ)
    (hrot : ext.rotate_frame_rd (source.x * 1000) (source.y * 1000)
      (source.z * 1000) receiver.longitude receiver.colatitude = (s, phi, z))
    (hfind : find_element ext mv s z (kdtree_query m.kd_points (s, z) 6) =
      some (idx, xi, eta))
    (hdump : pystrip m.dump_type = "displ_only")
    (hsf : strain_fct_map ext m.excitation_type = some sf) :
    get_seismogram ext mv m source receiver "N" =
      Except.ok (some ((List.range m.ndumps).map
        (contraction
          (sign_flip (final_strain_raw ext
            (basis_selection m (mv.axis idx)).2.2.1
            (basis_selection m (mv.axis idx)).2.2.2
            (sf (utemp m (mv.sem_mesh idx))
              (basis_selection m (mv.axis idx)).1
              (basis_selection m (mv.axis idx)).2.1
              (basis_selection m (mv.axis idx)).2.2.1
              (basis_selection m (mv.axis idx)).2.2.2
              m.npol m.ndumps (corner_points mv idx) (mv.eltype idx)
              (mv.axis idx)) xi eta))
          (compute_mij ext source receiver phi m.amplitude)
          (ext.azim_factor_bw phi (0, 1, 0) 2 1)
          (ext.azim_factor_bw phi (0, 1, 0) 2 2)))) := by
  simp only [get_seismogram, hrot, hfind, hdump, hsf]
  simp

/-- The search loop returns exactly the first candidate, in list order,
whose containment test succeeds, with the local coordinates that the test
reported. -/
theorem find_element_eq_find (ext : Ext) (mv : MeshVars) (s z : ℚ)
    (cands : List Nat) :
    find_element ext mv s z cands =
      (cands.find? (fun idx => (candidate_test ext mv s z idx).1)).map
        (fun idx => (idx, (candidate_test ext mv s z idx).2.1,
          (candidate_test ext mv s z idx).2.2)) := by
  induction cands with
  | nil => rfl
  | cons idx rest ih =>
    by_cases h : (candidate_test ext mv s z idx).1
    · simp [find_element, List.find?, h]
    · simp only [Bool.not_eq_true] at h
      simp [find_element, List.find?, h, ih]

/-- The spec-modelled spatial index lists candidates from nearest to
farthest. -/
theorem kdtree_query_sorted (pts : List (ℚ × ℚ)) (p : ℚ × ℚ) (k : Nat) :
    List.Sorted
      (fun i j => dist2 (pts.getD i (0, 0)) p ≤ dist2 (pts.getD j (0, 0)) p)
      (kdtree_query pts p k) := by
  haveI : IsTotal Nat
      (fun i j => dist2 (pts.getD i (0, 0)) p ≤ dist2 (pts.getD j (0, 0)) p) :=
    ⟨fun a b => le_total _ _⟩
  haveI : IsTrans Nat
      (fun i j => dist2 (pts.getD i (0, 0)) p ≤ dist2 (pts.getD j (0, 0)) p) :=
    ⟨fun a b c hab hbc => le_trans hab hbc⟩
  exact List.Pairwise.sublist (List.take_sublist _ _)
    (List.sorted_insertionSort _ _)

/-- `find_element` depends on the external routines only through the
containment test. -/
theorem find_element_ext_congr (ext ext2 : Ext) (mv : MeshVars) (s z : ℚ)
    (h : ext2.inside_element = ext.inside_element) (l : List Nat) :
    find_element ext2 mv s z l = find_element ext mv s z l := by
  induction l with
  | nil => rfl
  | cons idx rest ih => simp only [find_element, candidate_test, h, ih]

/-!  The claims. -/

/-- C1: the element search tests the spatial-index candidates in
nearest-to-farthest order and selects the first whose containment test
succeeds; if none of the k nearest candidates contains the rotated query
point, `get_seismogram` fails with the explicit "Element not found" error
instead of returning any interpolation result. -/
theorem c1_element_search :
    (∀ ext mv s z cands, find_element ext mv s z cands =
      (cands.find? (fun idx => (candidate_test ext mv s z idx).1)).map
        (fun idx => (idx, (candidate_test ext mv s z idx).2.1,
          (candidate_test ext mv s z idx).2.2))) ∧
    (∀ pts p k, List.Sorted
      (fun i j => dist2 (pts.getD i (0, 0)) p ≤ dist2 (pts.getD j (0, 0)) p)
      (kdtree_query pts p k)) ∧
    (∀ ext mv m source receiver component s phi z,
      ext.rotate_frame_rd (source.x * 1000) (source.y * 1000)
        (source.z * 1000) receiver.longitude receiver.colatitude =
        (s, phi, z) →
      (∀ idx ∈ kdtree_query m.kd_points (s, z) 6,
        (candidate_test ext mv s z idx).1 = false) →
      get_seismogram ext mv m source receiver component =
        Except.error "Element not found") := by
  refine ⟨find_element_eq_find, kdtree_query_sorted, ?_⟩
  intro ext mv m source receiver component s phi z hrot hall
  have hnone : (kdtree_query m.kd_points (s, z) 6).find?
      (fun idx => (candidate_test ext mv s z idx).1) = none := by
    rw [List.find?_eq_none]
    intro idx hidx
    simp [hall idx hidx]
  have hfe : find_element ext mv s z (kdtree_query m.kd_points (s, z) 6) =
      none := by
    rw [find_element_eq_find, hnone]
    rfl
  simp [get_seismogram, hrot, hfe]

/-- Witness for C1: on a one-element database whose containment test
always fails, the query fails with "Element not found". -/
theorem c1_element_search_witness :
    get_seismogram extF mvW mW srcW recW "N" =
      Except.error "Element not found" :=
  c1_element_search.2.2 extF mvW mW srcW recW "N" 0 0 0 rfl (by decide)

/-- C2: the contraction computes each output sample as the sum over the 6
Voigt components of strain times rotated moment times multiplicity times
azimuth factor, with multiplicities (1,1,1,2,2,2), sign -1 applied to the
interpolated strain exactly at Voigt indices 3 and 5 before the
contraction, and an overall sign flip at the end. -/
theorem c2_contraction_formula (fs : Nat → Fin 6 → ℚ) (mij : Fin 6 → ℚ)
    (fac_1 fac_2 : ℚ) (t : Nat) :
    contraction (sign_flip fs) mij fac_1 fac_2 t =
      -(∑ i : Fin 6, strain_sign i * fs t i * mij i * voigt_multiplicity i *
        azim_weight fac_1 fac_2 i) := by
  simp [contraction, sign_flip, Fin.sum_univ_six, voigt_multiplicity,
    azim_weight, strain_sign]

/-- C9: the chunk-aligned first assignment to `start_chunk` is dead code:
the index actually used is the raw node id, and deleting the first
assignment leaves `get_seismogram` unchanged on every input. -/
theorem c9_start_chunk_dead_code :
    (∀ gll_id chunks1, start_chunk_index gll_id chunks1 = gll_id) ∧
    (∀ ext mv m source receiver component,
      get_seismogram ext mv m source receiver component =
        get_seismogram_nochunk ext mv m source receiver component) :=
  ⟨fun _ _ => rfl, fun _ _ _ _ _ _ => rfl⟩

/-- C8 is false of the code: because `hasattr(self, "__cached_info")`
tests the unmangled string while the assignment writes the mangled
attribute name, two successive accesses of the `info` property invoke
`get_info()` twice and return two distinct freshly computed values; the
cache guard never fires. -/
theorem c8_info_recomputed_each_access :
    (info_property (InfoState.mk [] 0)).1.get_info_calls = 1 ∧
    (info_property (info_property (InfoState.mk [] 0)).1).1.get_info_calls
      = 2 ∧
    hasattr (info_property (InfoState.mk [] 0)).1.attrs "__cached_info"
      = false ∧
    (info_property (InfoState.mk [] 0)).2 = some 1 ∧
    (info_property (info_property (InfoState.mk [] 0)).1).2 = some 2 :=
  ⟨rfl, rfl, rfl, rfl, rfl⟩

/-- C10: the spatial-index query inside `get_seismogram` is hard-coded to
k = 6, and a query point whose containing element is not among the 6
nearest reference vertices fails with "Element not found" even though an
element of the mesh contains it. -/
theorem c10_hardcoded_k6 :
    (∀ pts p, (kdtree_query pts p 6).length = min 6 pts.length) ∧
    ((candidate_test ext10 mv10 0 0 6).1 = true ∧
      6 ∉ kdtree_query m10.kd_points (0, 0) 6 ∧
      get_seismogram ext10 mv10 m10 srcW recW "N" =
        Except.error "Element not found") := by
  have h : kdtree_query [(1, 0), (2, 0), (3, 0), (4, 0), (5, 0), (6, 0), (10, 0)]
      ((0 : ℚ), (0 : ℚ)) 6 = [0, 1, 2, 3, 4, 5] := by
    norm_num [kdtree_query, List.insertionSort, List.orderedInsert, dist2,
      -Prod.mk_zero_zero]
  constructor
  · intro pts p
    simp [kdtree_query]
  · refine ⟨by norm_num [candidate_test, ext10, mv10, corner_points], ?_, ?_⟩
    · show 6 ∉ kdtree_query [(1, 0), (2, 0), (3, 0), (4, 0), (5, 0), (6, 0), (10, 0)]
        ((0 : ℚ), (0 : ℚ)) 6
      rw [h]
      decide
    · norm_num [get_seismogram, ext10, mv10, m10, srcW, recW, h, find_element,
        candidate_test, corner_points, -Prod.mk_zero_zero]

/-- Counterexample to C3 as stated: for component "Z" the Python function
falls through its `if component == "N"` block and returns `None` — neither
an explicit error nor a time series. -/
theorem c3_counterexample :
    get_seismogram extT mvW mW srcW recW "Z" = Except.ok none := rfl

/-- C3 (amended): every query either raises an explicit error, or — for
component "N" — returns a complete trace with one value per time sample,
or — for any other component — returns `None`. -/
theorem c3_total_result_shape (ext : Ext) (mv : MeshVars) (m : Mesh)
    (source : Source) (receiver : Receiver) (component : String) :
    (∃ e, get_seismogram ext mv m source receiver component =
      Except.error e) ∨
    (component = "N" ∧ ∃ l, get_seismogram ext mv m source receiver component
      = Except.ok (some l) ∧ l.length = m.ndumps) ∨
    (component ≠ "N" ∧ get_seismogram ext mv m source receiver component =
      Except.ok none) := by
  rcases h3 : ext.rotate_frame_rd (source.x * 1000) (source.y * 1000)
    (source.z * 1000) receiver.longitude receiver.colatitude with ⟨s, phi, z⟩
  rcases hfe : find_element ext mv s z (kdtree_query m.kd_points (s, z) 6)
    with _ | ⟨idx, xi, eta⟩
  · exact Or.inl ⟨"Element not found", by simp [get_seismogram, h3, hfe]⟩
  · by_cases hc : component = "N"
    · by_cases hd : pystrip m.dump_type = "displ_only"
      · rcases hsm : strain_fct_map ext m.excitation_type with _ | sf
        · exact Or.inl ⟨"KeyError",
            by simp [get_seismogram, h3, hfe, hc, hd, hsm]⟩
        · subst hc
          have hh := get_seismogram_found ext mv m source receiver idx xi eta
            sf s phi z h3 hfe hd hsm
          exact Or.inr (Or.inl ⟨rfl, _, hh, by simp⟩)
      · exact Or.inl ⟨"NotImplementedError",
          by simp [get_seismogram, h3, hfe, hc, hd]⟩
    · exact Or.inr (Or.inr ⟨hc, by simp [get_seismogram, h3, hfe, hc]⟩)

/-- Counterexample to C4 as stated: against a database whose dump type is
"strain_only", a query whose element search fails raises "Element not
found" (not the unsupported-capability error), and a query for a component
other than "N" returns `None`; the dump-type guard is only reached for
component "N" after a successful element search. -/
theorem c4_counterexample :
    get_seismogram extF mvW mBad srcW recW "N" =
      Except.error "Element not found" ∧
    get_seismogram extT mvW mBad srcW recW "Z" = Except.ok none :=
  ⟨rfl, rfl⟩

/-- C4 (amended): for a component-"N" query whose element search succeeds,
a stripped dump type other than "displ_only" makes `get_seismogram` fail
with the NotImplementedError capability error — distinct from "Element not
found" — and the result does not depend on the strain-derivation,
interpolation, rotation or azimuth routines, which are never reached. -/
theorem c4_dump_type_guard (ext ext2 : Ext) (mv : MeshVars) (m : Mesh)
    (source : Source) (receiver : Receiver) (idx : Nat) (xi eta : ℚ)
    (s phi z : ℚ)
    (hrot : ext.rotate_frame_rd (source.x * 1000) (source.y * 1000)
      (source.z * 1000) receiver.longitude receiver.colatitude = (s, phi, z))
    (hfind : find_element ext mv s z (kdtree_query m.kd_points (s, z) 6) =
      some (idx, xi, eta))
    (hdump : pystrip m.dump_type ≠ "displ_only")
    (h1 : ext2.rotate_frame_rd = ext.rotate_frame_rd)
    (h2 : ext2.inside_element = ext.inside_element) :
    get_seismogram ext mv m source receiver "N" =
      Except.error "NotImplementedError" ∧
    get_seismogram ext2 mv m source receiver "N" =
      Except.error "NotImplementedError" := by
  have hfind2 : find_element ext2 mv s z (kdtree_query m.kd_points (s, z) 6)
      = some (idx, xi, eta) := by
    rw [find_element_ext_congr ext ext2 mv s z h2, hfind]
  constructor
  · simp [get_seismogram, hrot, hfind, hdump]
  · simp [get_seismogram, h1, hrot, hfind2, hdump]

/-- Witness for C4 (amended), on the concrete bad-dump database. -/
theorem c4_dump_type_guard_witness :
    find_element extT mvW 0 0 (kdtree_query mBad.kd_points (0, 0) 6) =
      some (0, 0, 0) ∧
    pystrip mBad.dump_type ≠ "displ_only" ∧
    get_seismogram extT mvW mBad srcW recW "N" =
      Except.error "NotImplementedError" ∧
    get_seismogram extF mvW mBad srcW recW "N" =
      Except.error "Element not found" := by
  have htrim : pystrip mBad.dump_type = "strain_only" := rfl
  refine ⟨rfl, by rw [htrim]; decide, ?_, rfl⟩
  exact (c4_dump_type_guard extT extT mvW mBad srcW recW 0 0 0 0 0 0 rfl rfl
    (by rw [htrim]; decide) rfl rfl).1

/-- C5: the moment tensor is rotated by the three Voigt rotations in the
fixed order source-to-earth, earth-to-receiver-source, then to the
mesh-azimuth frame by the angle phi from the coordinate rotation, and the
rotated tensor is divided by the database amplitude before entering the
contraction. -/
theorem c5_moment_tensor_rotation (ext : Ext) (mv : MeshVars) (m : Mesh)
    (source : Source) (receiver : Receiver) (idx : Nat) (xi eta : ℚ)
    (sf : StrainFn) (s phi z : ℚ)
    (hrot : ext.rotate_frame_rd (source.x * 1000) (source.y * 1000)
      (source.z * 1000) receiver.longitude receiver.colatitude = (s, phi, z))
    (hfind : find_element ext mv s z (kdtree_query m.kd_points (s, z) 6) =
      some (idx, xi, eta))
    (hdump : pystrip m.dump_type = "displ_only")
    (hsf : strain_fct_map ext m.excitation_type = some sf) :
    get_seismogram ext mv m source receiver "N" =
      Except.ok (some ((List.range m.ndumps).map
        (contraction
          (sign_flip (final_strain_raw ext
            (basis_selection m (mv.axis idx)).2.2.1
            (basis_selection m (mv.axis idx)).2.2.2
            (sf (utemp m (mv.sem_mesh idx))
              (basis_selection m (mv.axis idx)).1
              (basis_selection m (mv.axis idx)).2.1
              (basis_selection m (mv.axis idx)).2.2.1
              (basis_selection m (mv.axis idx)).2.2.2
              m.npol m.ndumps (corner_points mv idx) (mv.eltype idx)
              (mv.axis idx)) xi eta))
          (fun i => ext.rotate_symm_tensor_voigt_xyz_to_src_1d
            (ext.rotate_symm_tensor_voigt_xyz_earth_to_xyz_src_1d
              (ext.rotate_symm_tensor_voigt_xyz_src_to_xyz_earth_1d
                source.tensor_voigt (ext.deg2rad source.longitude)
                (ext.deg2rad source.colatitude))
              (ext.deg2rad receiver.longitude)
              (ext.deg2rad receiver.colatitude))
            phi i / m.amplitude)
          (ext.azim_factor_bw phi (0, 1, 0) 2 1)
          (ext.azim_factor_bw phi (0, 1, 0) 2 2)))) :=
  get_seismogram_found ext mv m source receiver idx xi eta sf s phi z
    hrot hfind hdump hsf

/-- Witness for C5 on the concrete one-element database. -/
theorem c5_moment_tensor_rotation_witness :
    find_element extT mvW 0 0 (kdtree_query mW.kd_points (0, 0) 6) =
      some (0, 0, 0) ∧
    pystrip mW.dump_type = "displ_only" ∧
    strain_fct_map extT mW.excitation_type = some extT.strain_monopole_td ∧
    get_seismogram extT mvW mW srcW recW "N" = Except.ok (some [0, 0]) := by
  refine ⟨rfl, rfl, rfl, ?_⟩
  rw [c5_moment_tensor_rotation extT mvW mW srcW recW 0 0 0
    extT.strain_monopole_td 0 0 0 rfl rfl rfl rfl]
  norm_num [extT, mW, contraction, sign_flip, final_strain_raw,
    List.range_succ]

/-- C6: on the success path the point sets and differentiation matrices
are selected by the axis flag of the located element: an axial element
uses GLJ points along xi and GLL points along eta with matrices G2 and
G1T, a non-axial element uses GLL points along both directions with
matrices G2 and G2T, both for strain derivation and for interpolation. -/
theorem c6_axis_basis_selection :
    (∀ (ext : Ext) (mv : MeshVars) (m : Mesh) (source : Source)
      (receiver : Receiver) (idx : Nat) (xi eta : ℚ) (sf : StrainFn)
      (s phi z : ℚ),
      ext.rotate_frame_rd (source.x * 1000) (source.y * 1000)
        (source.z * 1000) receiver.longitude receiver.colatitude =
        (s, phi, z) →
      find_element ext mv s z (kdtree_query m.kd_points (s, z) 6) =
        some (idx, xi, eta) →
      pystrip m.dump_type = "displ_only" →
      strain_fct_map ext m.excitation_type = some sf →
      mv.axis idx = true →
      get_seismogram ext mv m source receiver "N" =
        Except.ok (some ((List.range m.ndumps).map
          (contraction
            (sign_flip (final_strain_raw ext m.glj_points m.gll_points
              (sf (utemp m (mv.sem_mesh idx)) m.G2 m.G1T m.glj_points
                m.gll_points m.npol m.ndumps (corner_points mv idx)
                (mv.eltype idx) true) xi eta))
            (compute_mij ext source receiver phi m.amplitude)
            (ext.azim_factor_bw phi (0, 1, 0) 2 1)
            (ext.azim_factor_bw phi (0, 1, 0) 2 2))))) ∧
    (∀ (ext : Ext) (mv : MeshVars) (m : Mesh) (source : Source)
      (receiver : Receiver) (idx : Nat) (xi eta : ℚ) (sf : StrainFn)
      (s phi z : ℚ),
      ext.rotate_frame_rd (source.x * 1000) (source.y * 1000)
        (source.z * 1000) receiver.longitude receiver.colatitude =
        (s, phi, z) →
      find_element ext mv s z (kdtree_query m.kd_points (s, z) 6) =
        some (idx, xi, eta) →
      pystrip m.dump_type = "displ_only" →
      strain_fct_map ext m.excitation_type = some sf →
      mv.axis idx = false →
      get_seismogram ext mv m source receiver "N" =
        Except.ok (some ((List.range m.ndumps).map
          (contraction
            (sign_flip (final_strain_raw ext m.gll_points m.gll_points
              (sf (utemp m (mv.sem_mesh idx)) m.G2 m.G2T m.gll_points
                m.gll_points m.npol m.ndumps (corner_points mv idx)
                (mv.eltype idx) false) xi eta))
            (compute_mij ext source receiver phi m.amplitude)
            (ext.azim_factor_bw phi (0, 1, 0) 2 1)
            (ext.azim_factor_bw phi (0, 1, 0) 2 2))))) := by
  constructor
  · intro ext mv m source receiver idx xi eta sf s phi z hrot hfind hdump hsf
      haxis
    rw [get_seismogram_found ext mv m source receiver idx xi eta sf s phi z
      hrot hfind hdump hsf, haxis]
    simp [basis_selection]
  · intro ext mv m source receiver idx xi eta sf s phi z hrot hfind hdump hsf
      haxis
    rw [get_seismogram_found ext mv m source receiver idx xi eta sf s phi z
      hrot hfind hdump hsf, haxis]
    simp [basis_selection]

/-- Witness for C6: both the axial and the non-axial selection, evaluated
on concrete one-element databases. -/
theorem c6_axis_basis_selection_witness :
    mvAx.axis 0 = true ∧ mvW.axis 0 = false ∧
    get_seismogram extT mvAx mW srcW recW "N" = Except.ok (some [0, 0]) ∧
    get_seismogram extT mvW mW srcW recW "N" = Except.ok (some [0, 0]) := by
  refine ⟨rfl, rfl, ?_, ?_⟩
  · rw [c6_axis_basis_selection.1 extT mvAx mW srcW recW 0 0 0
      extT.strain_monopole_td 0 0 0 rfl rfl rfl rfl rfl]
    norm_num [extT, mW, contraction, sign_flip, final_strain_raw,
      List.range_succ]
  · rw [c6_axis_basis_selection.2 extT mvW mW srcW recW 0 0 0
      extT.strain_monopole_td 0 0 0 rfl rfl rfl rfl rfl]
    norm_num [extT, mW, contraction, sign_flip, final_strain_raw,
      List.range_succ]

/-- C7: when a displacement variable is absent from the field store the
corresponding component of the zero-initialised buffer stays exactly
zero, and whether the query succeeds is unaffected by the content of the
field store. -/
theorem c7_absent_disp_component (kd : List (ℚ × ℚ)) (dt : String)
    (np nd : Nat) (ch : List Nat) (ex : String) (amp : ℚ)
    (g2 g1t g2t : Mat) (gllp gljp : List ℚ)
    (snap snap2 : String → Option (Nat → Nat → ℚ)) (c : Fin 3)
    (habs : snap (disp_var c) = none) :
    (∀ gll t jpol ipol,
      utemp (Mesh.mk kd dt np nd ch ex amp g2 g1t g2t gllp gljp snap)
        gll t jpol ipol c = 0) ∧
    (∀ (ext : Ext) (mv : MeshVars) (source : Source) (receiver : Receiver)
      (component : String),
      is_ok (get_seismogram ext mv
        (Mesh.mk kd dt np nd ch ex amp g2 g1t g2t gllp gljp snap)
        source receiver component) =
      is_ok (get_seismogram ext mv
        (Mesh.mk kd dt np nd ch ex amp g2 g1t g2t gllp gljp snap2)
        source receiver component)) := by
  constructor
  · intro gll t jpol ipol
    simp [utemp, habs]
  · intro ext mv source receiver component
    rcases h3 : ext.rotate_frame_rd (source.x * 1000) (source.y * 1000)
      (source.z * 1000) receiver.longitude receiver.colatitude
      with ⟨s, phi, z⟩
    rcases hfe : find_element ext mv s z (kdtree_query kd (s, z) 6)
      with _ | ⟨idx, xi, eta⟩
    · simp [get_seismogram, h3, hfe]
    · by_cases hc : component = "N"
      · by_cases hd : pystrip dt = "displ_only"
        · rcases hsm : strain_fct_map ext ex with _ | sf
          · simp [get_seismogram, h3, hfe, hc, hd, hsm]
          · simp [get_seismogram, h3, hfe, hc, hd, hsm, is_ok]
        · simp [get_seismogram, h3, hfe, hc, hd]
      · simp [get_seismogram, h3, hfe, hc]

/-- Witness for C7: a field store with all three displacement variables
absent yields a zero buffer and the same success status as a fully
populated one. -/
theorem c7_absent_disp_component_witness :
    (fun _ => (none : Option (Nat → Nat → ℚ))) (disp_var 0) = none ∧
    utemp (Mesh.mk [(0, 0)] "displ_only" 1 2 [1, 1] "monopole" 1 [[1]] [[1]]
      [[1]] [0] [0] (fun _ => none)) (fun _ _ => 0) 0 0 0 0 = 0 ∧
    is_ok (get_seismogram extT mvW (Mesh.mk [(0, 0)] "displ_only" 1 2 [1, 1]
      "monopole" 1 [[1]] [[1]] [[1]] [0] [0] (fun _ => none)) srcW recW "N") =
    is_ok (get_seismogram extT mvW (Mesh.mk [(0, 0)] "displ_only" 1 2 [1, 1]
      "monopole" 1 [[1]] [[1]] [[1]] [0] [0] (fun _ => some (fun _ _ => 1)))
      srcW recW "N") := by
  refine ⟨rfl, ?_, ?_⟩
  · exact (c7_absent_disp_component [(0, 0)] "displ_only" 1 2 [1, 1]
      "monopole" 1 [[1]] [[1]] [[1]] [0] [0] (fun _ => none)
      (fun _ => some (fun _ _ => 1)) 0 rfl).1 (fun _ _ => 0) 0 0 0
  · exact (c7_absent_disp_component [(0, 0)] "displ_only" 1 2 [1, 1]
      "monopole" 1 [[1]] [[1]] [[1]] [0] [0] (fun _ => none)
      (fun _ => some (fun _ _ => 1)) 0 rfl).2 extT mvW srcW recW "N"

end Instaseis
